import Mathlib

/-!
# Verification of the workflow-hygiene analyzer (`scripts/workflow_doctor.py`)

This file gives a shallow embedding of the analyzer in Lean 4 and settles the
frozen claims about it.

Embedding conventions:
* Python strings are Lean `String`s; character-level work uses `String.data`.
* Parsed YAML documents are values of the inductive `Yaml` (mappings are
  association lists keyed by `String`; workflow documents use string keys).
  Floats are not modelled; no analysed claim involves them.
* Python code that can raise is embedded as `Except PyError _`; an uncaught
  exception in the script is an `Except.error` value.
* `re.fullmatch` with the two concrete patterns of the classifier is embedded
  as executable matchers over `List Char`; `\d` is embedded as the ASCII
  digits (the analysed inputs are ASCII).
* Python `str.lower()` is embedded as mapping `Char.toLower`; for comparison
  against the ASCII alias set used by the classifier the two agree.
-/

/-- The five pinning classifications produced by `classify_action_reference`. -/
inductive Classification where
  | unpinned
  | floatingBranch
  | floatingTag
  | pinnedSha
  | tagged
deriving DecidableEq, Repr

/-- `ref.split("@", 1)[1]`: everything after the first occurrence of `c`. -/
def afterFirstChar (c : Char) : List Char → List Char
  | [] => []
  | x :: xs => if x = c then xs else afterFirstChar c xs

/-- `version.lower() in {"main", "master", "latest", "edge"}`. -/
def isFloatingBranchAlias (v : List Char) : Bool :=
  let lv := v.map Char.toLower
  decide (lv = "main".data) || decide (lv = "master".data) ||
    decide (lv = "latest".data) || decide (lv = "edge".data)

/-- The character class `\d` of the pattern, embedded as the ASCII digits. -/
def isAsciiDigit (c : Char) : Bool :=
  decide ('0' ≤ c) && decide (c ≤ '9')

/-- The character class `[0-9a-fA-F]`. -/
def isHexChar (c : Char) : Bool :=
  isAsciiDigit c || (decide ('a' ≤ c) && decide (c ≤ 'f')) ||
    (decide ('A' ≤ c) && decide (c ≤ 'F'))

/-- One `\d+` group: non-empty and all digits. -/
def digitGroup (l : List Char) : Bool :=
  !l.isEmpty && l.all isAsciiDigit

/-- Split a character list on a separator character (every occurrence). -/
def splitOnChar (c : Char) : List Char → List (List Char)
  | [] => [[]]
  | x :: xs =>
    if x = c then
      [] :: splitOnChar c xs
    else
      match splitOnChar c xs with
      | [] => [[x]]
      | g :: gs => (x :: g) :: gs

/-- `re.fullmatch(r"v?\d+(\.\d+)*", version)`: an optional leading `v`, then
dot-separated non-empty digit groups. -/
def matchesNumTag (v : List Char) : Bool :=
  let core := match v with
    | 'v' :: rest => rest
    | _ => v
  (splitOnChar '.' core).all digitGroup

/-- `re.fullmatch(r"[0-9a-fA-F]{7,40}", version)`. -/
def matchesHex7to40 (v : List Char) : Bool :=
  decide (7 ≤ v.length) && decide (v.length ≤ 40) && v.all isHexChar

/-- `classify_action_reference` from `workflow_doctor.py`, rule for rule and in
the same order. -/
def classify_action_reference (ref : String) : Classification :=
  if '@' ∈ ref.data then
    let version := afterFirstChar '@' ref.data
    if isFloatingBranchAlias version then .floatingBranch
    else if matchesNumTag version then .floatingTag
    else if matchesHex7to40 version then .pinnedSha
    else .tagged
  else .unpinned

example : classify_action_reference "actions/checkout" = .unpinned := by decide
example : classify_action_reference "actions/checkout@main" = .floatingBranch := by decide
example : classify_action_reference "actions/checkout@v4" = .floatingTag := by decide
example : classify_action_reference "actions/checkout@v4.1.2" = .floatingTag := by decide
example : classify_action_reference
    "actions/checkout@a1b2c3d4e5f60718293a4b5c6d7e8f9012345678" = .pinnedSha := by decide
example : classify_action_reference "actions/checkout@release-2024" = .tagged := by decide
example : classify_action_reference "actions/checkout@123456" = .floatingTag := by decide
example : classify_action_reference "actions/checkout@1234567" = .floatingTag := by decide
example : classify_action_reference "actions/checkout@MAIN" = .floatingBranch := by decide
example : classify_action_reference "actions/checkout@deadbee" = .pinnedSha := by decide
example : classify_action_reference "actions/checkout@" = .tagged := by decide

/-- A parsed YAML value, as produced by `yaml.safe_load`.  Mappings are
association lists with string keys (workflow documents use string keys; keys
are unique in a parsed mapping, so `List.lookup` matches `dict` access).
Floats are not modelled; no analysed claim involves them. -/
inductive Yaml where
  | null
  | bool (b : Bool)
  | int (n : Int)
  | str (s : String)
  | seq (items : List Yaml)
  | map (entries : List (String × Yaml))

/-- Python truthiness (`bool(x)`) for parsed YAML values. -/
def Yaml.truthy : Yaml → Bool
  | .null => false
  | .bool b => b
  | .int n => decide (n ≠ 0)
  | .str s => !s.data.isEmpty
  | .seq xs => !xs.isEmpty
  | .map kvs => !kvs.isEmpty

/-- Whether a value is a mapping (`isinstance(x, dict)`). -/
def Yaml.isMap : Yaml → Bool
  | .map _ => true
  | _ => false

/-- Whether a value is `None`. -/
def Yaml.isNull : Yaml → Bool
  | .null => true
  | _ => false

/-- Whether a value is a string (`isinstance(x, str)`). -/
def Yaml.isStr : Yaml → Bool
  | .str _ => true
  | _ => false

/-- Whether a value is a sequence (`isinstance(x, list)`). -/
def Yaml.isSeq : Yaml → Bool
  | .seq _ => true
  | _ => false

/-- An exception raised by the Python code.  The payload names the attribute
or operation involved. -/
inductive PyError where
  | parseError (msg : String)
  | attributeError (attr : String)
  | typeError (msg : String)
deriving DecidableEq, Repr

/-- A single quote character, for `repr` of strings. -/
def pyQuote : String := "\x27"

mutual

/-- Python `repr` of a parsed YAML value.  String-escaping inside `repr` is
not modelled (no analysed claim depends on it). -/
def pyRepr : Yaml → String
  | .null => "None"
  | .bool true => "True"
  | .bool false => "False"
  | .int n => toString n
  | .str s => pyQuote ++ s ++ pyQuote
  | .seq xs => "[" ++ String.intercalate ", " (pyReprList xs) ++ "]"
  | .map kvs => "\x7b" ++ String.intercalate ", " (pyReprKVs kvs) ++ "\x7d"

/-- `repr` of each element of a sequence. -/
def pyReprList : List Yaml → List String
  | [] => []
  | x :: xs => pyRepr x :: pyReprList xs

/-- `repr` of each `key: value` entry of a mapping. -/
def pyReprKVs : List (String × Yaml) → List String
  | [] => []
  | (k, v) :: rest => (pyQuote ++ k ++ pyQuote ++ ": " ++ pyRepr v) :: pyReprKVs rest

end

/-- Python `str(x)`: the string itself for strings, `repr`-style text
otherwise (`str` and `repr` agree on `None`, booleans, integers, lists and
dictionaries). -/
def pyStr : Yaml → String
  | .str s => s
  | y => pyRepr y

/-- The `.get(key)` / `.get(key, default)` method: only mappings have it; a
missing key yields the default. -/
def dictGet (y : Yaml) (k : String) (dflt : Yaml) : Except PyError Yaml :=
  match y with
  | .map kvs => .ok ((kvs.lookup k).getD dflt)
  | _ => .error (.attributeError "get")

/-- Iteration (`for x in y`): sequences yield their items, mappings their
keys, strings their characters; other values raise `TypeError`. -/
def pyIterate : Yaml → Except PyError (List Yaml)
  | .seq xs => .ok xs
  | .map kvs => .ok (kvs.map (fun p => .str p.1))
  | .str s => .ok (s.data.map (fun c => .str (String.singleton c)))
  | _ => .error (.typeError "not iterable")

/-- `load_yaml_file`: the input is the outcome of `yaml.safe_load` on the
file (`.error` for a parse failure, `.ok .null` for an empty document).
`safe_load(handle) or {}` replaces a *falsy* result — `None`, `{}`, `[]`,
`""`, `0`, `False` — with the empty mapping; truthy non-mapping roots pass
through unchanged. -/
def load_yaml_file (parsed : Except PyError Yaml) : Except PyError Yaml :=
  match parsed with
  | .error e => .error e
  | .ok d => .ok (if d.truthy then d else .map [])

/-- `collect_triggers`: `None` gives no triggers, a string a singleton, a
sequence the `str()` of each item; any other value falls through to
`raw_on.keys()`, which only mappings support — a number or boolean raises
`AttributeError`. -/
def collect_triggers (raw_on : Yaml) : Except PyError (List String) :=
  match raw_on with
  | .null => .ok []
  | .str s => .ok [s]
  | .seq items => .ok (items.map pyStr)
  | .map kvs => .ok (kvs.map (fun p => p.1))
  | _ => .error (.attributeError "keys")

example : collect_triggers (.seq [.str "push", .int 3]) = .ok ["push", "3"] := rfl
example : collect_triggers (.int 5) = .error (.attributeError "keys") := rfl
example : collect_triggers (.bool true) = .error (.attributeError "keys") := rfl
example : load_yaml_file (.ok (.seq [.int 1])) = .ok (.seq [.int 1]) := rfl
example : load_yaml_file (.ok (.str "")) = .ok (.map []) := rfl

/-- The warning emitted when the top-level `permissions` key is absent. -/
def topPermissionsWarning : String :=
  "Workflow does not declare top-level `permissions`. Define minimal permissions to avoid unexpected token scope."

/-- The info emitted for a job without its own `permissions` key. -/
def jobPermissionsInfo (jobName : String) : String :=
  "Job `" ++ jobName ++ "` inherits workflow permissions. If it needs fewer privileges, set job-specific `permissions`."

/-- The warning emitted when `pull_request_target` is among the triggers. -/
def prTargetWarning : String :=
  "`pull_request_target` runs with elevated permissions. Ensure all referenced actions are pinned and inputs validated."

/-- One entry of the job-permissions loop of `check_permissions`: non-mapping
jobs are skipped (`continue`); a mapping job without a `permissions` key
yields one info. -/
def jobPermEntry (p : String × Yaml) : Option String :=
  match p.2 with
  | .map jm =>
    if (jm.lookup "permissions").isSome then none else some (jobPermissionsInfo p.1)
  | _ => none

/-- `check_permissions`, returning the `(warnings, infos)` it appends to the
report.  On a mapping: the top-level warning fires exactly when the
`permissions` key is absent; `workflow.get("jobs", {}) or {}` normalizes a
falsy `jobs` value to the empty mapping, but a *truthy* non-mapping value
reaches `jobs.items()`, which raises `AttributeError`.  On a sequence or a
string the `"permissions" not in workflow` membership test succeeds but
`workflow.get(...)` raises `AttributeError`; on `None`, a boolean or a number
the membership test itself raises `TypeError`.  (Findings appended before an
exception are lost with the report, which the driver never renders.) -/
def check_permissions (workflow : Yaml) : Except PyError (List String × List String) :=
  match workflow with
  | .map kvs =>
    let warns := if (kvs.lookup "permissions").isSome then [] else [topPermissionsWarning]
    let jobsRaw := (kvs.lookup "jobs").getD .null
    let jobs := if jobsRaw.truthy then jobsRaw else .map []
    match jobs with
    | .map jentries => .ok (warns, jentries.filterMap jobPermEntry)
    | _ => .error (.attributeError "items")
  | .seq _ => .error (.attributeError "get")
  | .str _ => .error (.attributeError "get")
  | _ => .error (.typeError "argument of wrong type is not iterable")

/-- Sequential effectful map over `Except`, aborting at the first raised
exception: the evaluation order of a Python list comprehension (and of a
consumed generator). -/
def exceptMapM (g : α → Except ε β) : List α → Except ε (List β)
  | [] => .ok []
  | x :: xs =>
    match g x with
    | .error e => .error e
    | .ok y =>
      match exceptMapM g xs with
      | .error e => .error e
      | .ok ys => .ok (y :: ys)

/-- The step-level part of `iter_uses_statements` for one iterated element:
only mapping steps with a `uses` key yield a pair; the display name is
`step.get("name") or step.get("id") or "unnamed step"` (Python truthiness
chain), formatted with `str()`. -/
def stepUsesEntry (jobName : String) (step : Yaml) : Option (String × String) :=
  match step with
  | .map sm =>
    match sm.lookup "uses" with
    | some u =>
      let nameV := (sm.lookup "name").getD .null
      let idV := (sm.lookup "id").getD .null
      let disp := if nameV.truthy then nameV else if idV.truthy then idV else .str "unnamed step"
      some ("step `" ++ pyStr disp ++ "` in job `" ++ jobName ++ "`", pyStr u)
    | none => none
  | _ => none

/-- The per-job part of `iter_uses_statements`: a mapping job with a `uses`
key yields a job-level pair; then `job.get("steps", []) or []` is iterated.
A non-mapping job value raises `AttributeError` at `job.get` (the
`isinstance` guard protects only the job-level `uses` access). -/
def jobUsesEntries (jobName : String) (job : Yaml) : Except PyError (List (String × String)) :=
  match job with
  | .map jm =>
    let jobLevel := match jm.lookup "uses" with
      | some u => [("job `" ++ jobName ++ "`", pyStr u)]
      | none => []
    let stepsRaw := (jm.lookup "steps").getD (.seq [])
    let steps := if stepsRaw.truthy then stepsRaw else .seq []
    match pyIterate steps with
    | .error e => .error e
    | .ok items => .ok (jobLevel ++ items.filterMap (stepUsesEntry jobName))
  | _ => .error (.attributeError "get")

/-- `iter_uses_statements` (the generator, collected into a list):
`obj.get("jobs", {})` has *no* falsy-normalization, so `jobs: null` leaves
`None`, whose `.items()` raises `AttributeError`.  The embedding collects the
whole sequence in `Except`; the pairs the generator yielded before raising
only ever feed a report that the raised exception discards. -/
def iter_uses_statements (obj : Yaml) : Except PyError (List (String × String)) :=
  match obj with
  | .map kvs =>
    match (kvs.lookup "jobs").getD (.map []) with
    | .map jentries =>
      match exceptMapM (fun p => jobUsesEntries p.1 p.2) jentries with
      | .error e => .error e
      | .ok ls => .ok ls.flatten
    | _ => .error (.attributeError "items")
  | _ => .error (.attributeError "get")

/-- The `(warnings, infos)` emitted by `check_uses` for one `(location, ref)`
pair, by classification: warnings for `unpinned`, `floating-branch` and
`floating-tag`; an info for `pinned-sha`; nothing for `tagged`. -/
def usesFinding (loc ref : String) : List String × List String :=
  match classify_action_reference ref with
  | .unpinned =>
    ([loc ++ " references `" ++ ref ++ "` without a version. Pin to a tag or commit to avoid unexpected updates."], [])
  | .floatingBranch =>
    ([loc ++ " uses floating branch `" ++ ref ++ "`. Prefer a stable release or commit SHA."], [])
  | .floatingTag =>
    ([loc ++ " uses floating tag `" ++ ref ++ "`. Pin to a specific version or commit for reproducibility."], [])
  | .pinnedSha =>
    ([], [loc ++ " pins `" ++ ref ++ "` to a specific commit, which is reproducible."])
  | .tagged => ([], [])

/-- `check_uses`, returning the `(warnings, infos)` it appends to the report
in emission order. -/
def check_uses (workflow : Yaml) : Except PyError (List String × List String) :=
  match iter_uses_statements workflow with
  | .error e => .error e
  | .ok pairs =>
    .ok (pairs.flatMap (fun p => (usesFinding p.1 p.2).1),
         pairs.flatMap (fun p => (usesFinding p.1 p.2).2))

/-- `check_pr_target`: one warning when `pull_request_target` is among the
report's triggers. -/
def check_pr_target (triggers : List String) : List String :=
  if triggers.contains "pull_request_target" then [prTargetWarning] else []

/-- The report accumulated for one workflow file (`WorkflowReport`). -/
structure WorkflowReport where
  path : String
  triggers : List String
  warnings : List String
  infos : List String
deriving DecidableEq, Repr

/-- `analyze_workflow`: load (with falsy-normalization), extract triggers from
`workflow.get("on")`, then run `check_permissions`, `check_uses` and
`check_pr_target`, accumulating warnings and infos in that order.  Any
exception along the way propagates and no report is produced. -/
def analyze_workflow (path : String) (parsed : Except PyError Yaml) :
    Except PyError WorkflowReport :=
  match load_yaml_file parsed with
  | .error e => .error e
  | .ok workflow =>
    match dictGet workflow "on" .null with
    | .error e => .error e
    | .ok rawOn =>
      match collect_triggers rawOn with
      | .error e => .error e
      | .ok triggers =>
        match check_permissions workflow with
        | .error e => .error e
        | .ok (w1, i1) =>
          match check_uses workflow with
          | .error e => .error e
          | .ok (w2, i2) =>
            .ok { path := path, triggers := triggers,
                  warnings := w1 ++ w2 ++ check_pr_target triggers,
                  infos := i1 ++ i2 }

/-- Code-point comparison of character lists: Python `<=` on strings. -/
def charListLe : List Char → List Char → Bool
  | [], _ => true
  | _ :: _, [] => false
  | a :: as, b :: bs => if a = b then charListLe as bs else decide (a < b)

/-- Stable insertion of `x` into a sorted list (front-most admissible
position), the building block of the embedded `sorted`. -/
def insertLe (le : α → α → Bool) (x : α) : List α → List α
  | [] => [x]
  | y :: ys => if le x y then x :: y :: ys else y :: insertLe le x ys

/-- Python's stable `sorted`, embedded as a structural insertion sort (on a
total order such as string comparison the result is the unique sorted stable
permutation, so the sorting algorithm itself is immaterial). -/
def insertionSort (le : α → α → Bool) : List α → List α
  | [] => []
  | x :: xs => insertLe le x (insertionSort le xs)

/-- `sorted` on a list of strings (Python string order = code-point order). -/
def sortStrings (l : List String) : List String :=
  insertionSort (fun a b => charListLe a.data b.data) l

/-- The literal fallback line of `render`. -/
def noWarningsLine : String := "No warnings detected."

/-- The bullet prefix of info and warning lines. -/
def bulletPrefix : String := "  • "

/-- `WorkflowReport.render`, as the list of lines that `"\n".join` receives:
header, sorted comma-joined triggers (if any), `Info:` block (if any),
`Warnings:` block (if any), and the fallback line exactly when there are no
warnings. -/
def render_lines (r : WorkflowReport) : List String :=
  ["== " ++ (r.path ++ " ==")]
    ++ (if r.triggers.isEmpty then [] else
          ["Triggers: " ++ String.intercalate ", " (sortStrings r.triggers)])
    ++ (if r.infos.isEmpty then [] else
          "Info:" :: r.infos.map (fun m => bulletPrefix ++ m))
    ++ (if r.warnings.isEmpty then [] else
          "Warnings:" :: r.warnings.map (fun m => bulletPrefix ++ m))
    ++ (if r.warnings.isEmpty then [noWarningsLine] else [])

example :
    analyze_workflow "a.yml" (.ok (.map [])) =
      .ok { path := "a.yml", triggers := [], warnings := [topPermissionsWarning], infos := [] } := rfl
example :
    analyze_workflow "a.yml" (.ok (.map [("jobs", Yaml.null)])) =
      .error (.attributeError "items") := rfl
example :
    analyze_workflow "a.yml" (.ok (.map [("jobs", .map [("build", .str "x")])])) =
      .error (.attributeError "get") := rfl
example : analyze_workflow "a.yml" (.ok (.seq [.int 1])) = .error (.attributeError "get") := rfl

/-- One file directly inside the workflows directory: its name and the
outcome of `yaml.safe_load` on its contents. -/
structure WorkflowFile where
  name : String
  parsed : Except PyError Yaml

/-- Sort workflow files by name (Python `sorted` over same-directory paths
compares the name strings). -/
def sortFiles (l : List WorkflowFile) : List WorkflowFile :=
  insertionSort (fun a b => charListLe a.name.data b.name.data) l

/-- The `glob("*.ext")` membership test: `*` matches any (possibly empty)
name part, so a name matches exactly when it ends with the extension. -/
def nameEndsWith (f : WorkflowFile) (ext : String) : Bool :=
  ext.data.isSuffixOf f.name.data

/-- `find_workflows` on an existing directory:
`sorted(base.glob("*.yml")) + sorted(base.glob("*.yaml"))` — the two
extension groups are sorted independently and concatenated, `.yml` first. -/
def find_workflows (files : List WorkflowFile) : List WorkflowFile :=
  sortFiles (files.filter (fun f => nameEndsWith f ".yml"))
    ++ sortFiles (files.filter (fun f => nameEndsWith f ".yaml"))

/-- Modelled from the spec's words, for comparison with `find_workflows`
(refinement check of claim C5): "the sorted list of files with extension
`.yml` or `.yaml` directly inside that directory", one single list sorted by
path. -/
def find_workflows_spec (files : List WorkflowFile) : List WorkflowFile :=
  sortFiles (files.filter (fun f => nameEndsWith f ".yml" || nameEndsWith f ".yaml"))

/-- `main` on `--workflows-dir dirName` (named `main_driver` because `main`
is reserved in Lean).  `dir = none` models a missing
directory: `find_workflows` raises `FileNotFoundError`, which `main` catches,
writes to stderr and turns into exit status 1.  Otherwise the result is the
stdout lines and the exit status; a parse failure (or any other exception in
`analyze_workflow`) is *not* caught — the list comprehension building
`reports` propagates it, the process dies before printing anything, and the
embedding returns `.error`. -/
def main_driver (dirName : String) (dir : Option (List WorkflowFile)) :
    Except PyError (List String × Nat) :=
  match dir with
  | none => .ok ([], 1)
  | some files =>
    let wfs := find_workflows files
    if wfs.isEmpty then .ok (["No workflows found in " ++ dirName], 0)
    else
      match exceptMapM (fun f => analyze_workflow f.name f.parsed) wfs with
      | .error e => .error e
      | .ok reports => .ok (reports.flatMap (fun r => render_lines r ++ [""]), 0)

example : main_driver ".github/workflows" none = .ok ([], 1) := rfl
example : main_driver "wf" (some []) = .ok (["No workflows found in wf"], 0) := rfl
example :
    main_driver "wf" (some [⟨"a.yml", .ok (.map [])⟩, ⟨"b.yml", .error (.parseError "bad")⟩]) =
      .error (.parseError "bad") := rfl
example :
    (find_workflows [⟨"a.yaml", .ok .null⟩, ⟨"b.yml", .ok .null⟩]).map (fun f => f.name) =
      ["b.yml", "a.yaml"] := rfl
example :
    (find_workflows_spec [⟨"a.yaml", .ok .null⟩, ⟨"b.yml", .ok .null⟩]).map (fun f => f.name) =
      ["a.yaml", "b.yml"] := rfl

/-- A version accepted by the floating-branch alias check has at most 6
characters (the aliases are `main`, `master`, `latest`, `edge`). -/
theorem alias_length_le {v : List Char} (h : isFloatingBranchAlias v = true) :
    v.length ≤ 6 := by
  unfold isFloatingBranchAlias at h
  simp only [Bool.or_eq_true, decide_eq_true_eq] at h
  rcases h with ((h | h) | h) | h <;>
  · have hl := congrArg List.length h
    simp only [List.length_map] at hl
    rw [hl]
    decide

/-- A version accepted by the hex pattern has at least 7 characters. -/
theorem hex_length_ge {v : List Char} (h : matchesHex7to40 v = true) :
    7 ≤ v.length := by
  unfold matchesHex7to40 at h
  simp only [Bool.and_eq_true, decide_eq_true_eq] at h
  exact h.1.1

/-- C1: a reference without `@` classifies as `unpinned`, and the four
concrete references classify as `floating-branch`, `floating-tag`,
`pinned-sha` and `tagged` respectively. -/
theorem claim_C1 :
    (∀ ref : String, '@' ∉ ref.data → classify_action_reference ref = .unpinned)
    ∧ classify_action_reference "actions/checkout@main" = .floatingBranch
    ∧ classify_action_reference "actions/checkout@v4" = .floatingTag
    ∧ classify_action_reference
        "actions/checkout@a1b2c3d4e5f60718293a4b5c6d7e8f9012345678" = .pinnedSha
    ∧ classify_action_reference "actions/checkout@release-2024" = .tagged := by
  refine ⟨fun ref h => ?_, by decide, by decide, by decide, by decide⟩
  simp [classify_action_reference, h]

/-- Witness for C1: the `unpinned` clause applied to a concrete reference. -/
theorem claim_C1_witness : classify_action_reference "actions/checkout" = .unpinned :=
  claim_C1.1 "actions/checkout" (by decide)

/-- C2: whenever the version part (after the first `@`) matches both the
numeric-tag pattern and the 7-to-40-hex pattern, the classification is
`floating-tag`, because the numeric-tag rule is checked first (the branch
aliases are too short to collide with a 7-character-plus hex string). -/
theorem claim_C2 :
    (∀ ref : String, '@' ∈ ref.data →
      matchesNumTag (afterFirstChar '@' ref.data) = true →
      matchesHex7to40 (afterFirstChar '@' ref.data) = true →
      classify_action_reference ref = .floatingTag)
    ∧ classify_action_reference "actions/checkout@123456" = .floatingTag := by
  constructor
  · intro ref hAt hnum hhex
    have hlen : 7 ≤ (afterFirstChar '@' ref.data).length := hex_length_ge hhex
    have halias : isFloatingBranchAlias (afterFirstChar '@' ref.data) = false := by
      cases he : isFloatingBranchAlias (afterFirstChar '@' ref.data)
      · rfl
      · exact absurd (alias_length_le he) (by omega)
    simp [classify_action_reference, hAt, halias, hnum]
  · decide

/-- Witness for C2: a pure-digit 7-character version matches both patterns
and classifies as `floating-tag`. -/
theorem claim_C2_witness :
    classify_action_reference "actions/checkout@1234567" = .floatingTag :=
  claim_C2.1 "actions/checkout@1234567" (by decide) (by decide) (by decide)

/-- If some element of the list raises, the whole `exceptMapM` raises. -/
theorem exceptMapM_error_of_mem (g : α → Except ε β) {l : List α} {x : α} {e : ε}
    (hx : x ∈ l) (he : g x = .error e) : ∃ e2, exceptMapM g l = .error e2 := by
  induction l with
  | nil => cases hx
  | cons y ys ih =>
    cases hy : g y with
    | error e2 => exact ⟨e2, by simp [exceptMapM, hy]⟩
    | ok v =>
      rcases List.mem_cons.mp hx with h | h
      · subst h
        rw [he] at hy
        cases hy
      · obtain ⟨e2, h2⟩ := ih h
        exact ⟨e2, by simp [exceptMapM, hy, h2]⟩

/-- If every element of the list succeeds, `exceptMapM` succeeds. -/
theorem exceptMapM_ok_of_forall (g : α → Except ε β) :
    ∀ {l : List α}, (∀ x ∈ l, ∃ y, g x = .ok y) → ∃ ys, exceptMapM g l = .ok ys := by
  intro l
  induction l with
  | nil => exact fun _ => ⟨[], rfl⟩
  | cons x xs ih =>
    intro h
    obtain ⟨y, hy⟩ := h x (List.mem_cons_self x xs)
    obtain ⟨ys, hys⟩ := ih fun z hz => h z (List.mem_cons_of_mem _ hz)
    exact ⟨y :: ys, by simp [exceptMapM, hy, hys]⟩

/-- A successful `exceptMapM` maps element-wise: projections of the results
agree with projections of the inputs. -/
theorem exceptMapM_map_eq {g : α → Except ε β} {l : List α} {ys : List β}
    (h : exceptMapM g l = .ok ys) (f1 : β → γ) (f2 : α → γ)
    (hp : ∀ x y, g x = .ok y → f1 y = f2 x) : ys.map f1 = l.map f2 := by
  induction l generalizing ys with
  | nil =>
    simp only [exceptMapM] at h
    cases h
    rfl
  | cons x xs ih =>
    simp only [exceptMapM] at h
    cases hx : g x with
    | error e => rw [hx] at h; cases h
    | ok y =>
      rw [hx] at h
      cases ht : exceptMapM g xs with
      | error e => rw [ht] at h; cases h
      | ok zs =>
        rw [ht] at h
        cases h
        simp [hp x y hx, ih ht]

/-- A successful analysis reports the path it was given. -/
theorem analyze_workflow_path {p : String} {x : Except PyError Yaml} {r : WorkflowReport}
    (h : analyze_workflow p x = .ok r) : r.path = p := by
  unfold analyze_workflow at h
  cases h1 : load_yaml_file x with
  | error e => rw [h1] at h; cases h
  | ok wf =>
    rw [h1] at h
    dsimp only at h
    cases h2 : dictGet wf "on" .null with
    | error e => rw [h2] at h; cases h
    | ok rawOn =>
      rw [h2] at h
      dsimp only at h
      cases h3 : collect_triggers rawOn with
      | error e => rw [h3] at h; cases h
      | ok trig =>
        rw [h3] at h
        dsimp only at h
        cases h4 : check_permissions wf with
        | error e => rw [h4] at h; cases h
        | ok wi1 =>
          rw [h4] at h
          obtain ⟨w1, i1⟩ := wi1
          dsimp only at h
          cases h5 : check_uses wf with
          | error e => rw [h5] at h; cases h
          | ok wi2 =>
            rw [h5] at h
            obtain ⟨w2, i2⟩ := wi2
            dsimp only at h
            cases h
            rfl

/-- Counterexample to C3: with two workflow files in the directory, one valid
and one failing to parse, the driver propagates the parse failure — the run
aborts with no stdout at all, so the other file is neither analyzed nor
reported. -/
theorem claim_C3_counterexample :
    main_driver "wf"
      (some [⟨"a.yml", .ok (.map [])⟩, ⟨"b.yml", .error (.parseError "bad")⟩]) =
      .error (.parseError "bad") := rfl

/-- C3 as amended: a parse (or analysis) failure in any discovered file
aborts the entire run — the driver raises instead of reporting the remaining
files. -/
theorem claim_C3_amended (dirName : String) (files : List WorkflowFile)
    (f : WorkflowFile) (e : PyError) (hf : f ∈ find_workflows files)
    (he : analyze_workflow f.name f.parsed = .error e) :
    ∃ e2, main_driver dirName (some files) = .error e2 := by
  have hne : (find_workflows files).isEmpty = false := by
    cases hw : find_workflows files with
    | nil => rw [hw] at hf; cases hf
    | cons a l => rfl
  obtain ⟨e2, h2⟩ :=
    exceptMapM_error_of_mem (fun f => analyze_workflow f.name f.parsed) hf he
  exact ⟨e2, by simp [main_driver, hne, h2]⟩

/-- Witness for the amended C3 at a concrete two-file directory. -/
theorem claim_C3_amended_witness :
    ∃ e2,
      main_driver "wf"
        (some [⟨"a.yml", .ok (.map [])⟩, ⟨"c.yml", .error (.parseError "oops")⟩]) =
        .error e2 :=
  claim_C3_amended "wf" [⟨"a.yml", .ok (.map [])⟩, ⟨"c.yml", .error (.parseError "oops")⟩]
    ⟨"c.yml", .error (.parseError "oops")⟩ (.parseError "oops")
    (by
      show _ ∈ ([⟨"a.yml", .ok (.map [])⟩, ⟨"c.yml", .error (.parseError "oops")⟩] :
        List WorkflowFile)
      exact List.mem_cons_of_mem _ (List.mem_cons_self _ _))
    rfl

/-- Counterexample to C4: a directory whose single workflow file parses
successfully (to the mapping `{jobs: None}`) still makes the run fail — the
uses-reference pass raises on the null `jobs` value, so the exit status is
not 0 even though discovery and parsing succeeded. -/
theorem claim_C4_counterexample :
    main_driver "wf" (some [⟨"a.yml", .ok (.map [("jobs", Yaml.null)])⟩]) =
      .error (.attributeError "items") := rfl

/-- C4 as amended: if every discovered file parses *and analyzes* without an
exception, the exit status is 0, regardless of how many warnings were
emitted. -/
theorem claim_C4_amended (dirName : String) (files : List WorkflowFile)
    (h : ∀ f ∈ find_workflows files, ∃ r, analyze_workflow f.name f.parsed = .ok r) :
    ∃ out, main_driver dirName (some files) = .ok (out, 0) := by
  cases hw : (find_workflows files).isEmpty with
  | true =>
    refine ⟨["No workflows found in " ++ dirName], ?_⟩
    simp [main_driver, hw]
  | false =>
    obtain ⟨rs, hrs⟩ :=
      exceptMapM_ok_of_forall (fun f : WorkflowFile => analyze_workflow f.name f.parsed) h
    refine ⟨rs.flatMap (fun r => render_lines r ++ [""]), ?_⟩
    simp [main_driver, hw, hrs]

/-- Witness for the amended C4: a single warning-producing workflow still
gives exit status 0. -/
theorem claim_C4_amended_witness :
    ∃ out,
      main_driver "wf" (some [⟨"a.yml", .ok (.map [("on", .str "push")])⟩]) = .ok (out, 0) :=
  claim_C4_amended "wf" [⟨"a.yml", .ok (.map [("on", .str "push")])⟩]
    (by
      intro f hf
      have hf2 : f ∈ ([⟨"a.yml", .ok (.map [("on", .str "push")])⟩] : List WorkflowFile) := hf
      rcases List.mem_cons.mp hf2 with h | h
      · subst h
        exact ⟨_, rfl⟩
      · cases h)

/-- Counterexample to C5: with files `a.yaml` and `b.yml`, discovery returns
`[b.yml, a.yaml]` — the `.yml` group precedes the `.yaml` group — while the
claimed single path-sorted list (`find_workflows_spec`, modelled from the
spec's words) would be `[a.yaml, b.yml]`; accordingly the `b.yml` report is
printed first even though `a.yaml` sorts before it. -/
theorem claim_C5_counterexample :
    (find_workflows [⟨"a.yaml", .ok .null⟩, ⟨"b.yml", .ok .null⟩]).map
        (fun f => f.name) = ["b.yml", "a.yaml"]
    ∧ (find_workflows_spec [⟨"a.yaml", .ok .null⟩, ⟨"b.yml", .ok .null⟩]).map
        (fun f => f.name) = ["a.yaml", "b.yml"]
    ∧ main_driver "wf" (some [⟨"a.yaml", .ok .null⟩, ⟨"b.yml", .ok .null⟩]) =
        .ok (["== b.yml ==", "Warnings:", bulletPrefix ++ topPermissionsWarning, "",
              "== a.yaml ==", "Warnings:", bulletPrefix ++ topPermissionsWarning, ""], 0) :=
  ⟨rfl, rfl, rfl⟩

/-- C5 as amended: discovery returns the sorted `.yml` files followed by the
sorted `.yaml` files (two independently sorted groups), and the driver prints
one rendered report per discovered file, each followed by a blank line, in
exactly that discovery order. -/
theorem claim_C5_amended (dirName : String) (files : List WorkflowFile)
    (reports : List WorkflowReport)
    (hne : (find_workflows files).isEmpty = false)
    (h : exceptMapM (fun f => analyze_workflow f.name f.parsed) (find_workflows files) =
      .ok reports) :
    find_workflows files =
      sortFiles (files.filter (fun f => nameEndsWith f ".yml"))
        ++ sortFiles (files.filter (fun f => nameEndsWith f ".yaml"))
    ∧ main_driver dirName (some files) =
        .ok (reports.flatMap (fun r => render_lines r ++ [""]), 0)
    ∧ reports.map (fun r => r.path) = (find_workflows files).map (fun f => f.name) := by
  refine ⟨rfl, by simp [main_driver, hne, h], ?_⟩
  exact exceptMapM_map_eq h (fun r => r.path) (fun f => f.name)
    fun f r hr => analyze_workflow_path hr

/-- Witness for the amended C5 at a concrete two-file directory. -/
theorem claim_C5_amended_witness :
    find_workflows [⟨"a.yaml", .ok .null⟩, ⟨"b.yml", .ok .null⟩] =
      sortFiles (([⟨"a.yaml", .ok .null⟩, ⟨"b.yml", .ok .null⟩] :
          List WorkflowFile).filter (fun f => nameEndsWith f ".yml"))
        ++ sortFiles (([⟨"a.yaml", .ok .null⟩, ⟨"b.yml", .ok .null⟩] :
          List WorkflowFile).filter (fun f => nameEndsWith f ".yaml"))
    ∧ main_driver "dir" (some [⟨"a.yaml", .ok .null⟩, ⟨"b.yml", .ok .null⟩]) =
        .ok (([⟨"b.yml", [], [topPermissionsWarning], []⟩,
               ⟨"a.yaml", [], [topPermissionsWarning], []⟩] :
            List WorkflowReport).flatMap (fun r => render_lines r ++ [""]), 0)
    ∧ ([⟨"b.yml", [], [topPermissionsWarning], []⟩,
        ⟨"a.yaml", [], [topPermissionsWarning], []⟩] :
          List WorkflowReport).map (fun r => r.path) =
        (find_workflows [⟨"a.yaml", .ok .null⟩, ⟨"b.yml", .ok .null⟩]).map
          (fun f => f.name) :=
  claim_C5_amended "dir" [⟨"a.yaml", .ok .null⟩, ⟨"b.yml", .ok .null⟩]
    [⟨"b.yml", [], [topPermissionsWarning], []⟩, ⟨"a.yaml", [], [topPermissionsWarning], []⟩]
    rfl rfl

/-- Counterexample to C6: a document whose root is a non-empty sequence — one
of the claim's own examples — is *not* normalized to an empty mapping
(`or {}` only replaces falsy values); analysis then raises `AttributeError`
at `workflow.get("on")` and produces no report. -/
theorem claim_C6_counterexample :
    load_yaml_file (.ok (.seq [.int 1])) = .ok (.seq [.int 1])
    ∧ analyze_workflow "a.yml" (.ok (.seq [.int 1])) = .error (.attributeError "get") :=
  ⟨rfl, rfl⟩

/-- C6 as amended: a parsed root that is *falsy* (empty document, empty
mapping, empty sequence, empty string, zero, false) is normalized to the
empty mapping and analysis completes with an empty trigger set, no jobs, and
just the top-level-permissions warning; a *truthy* non-mapping root (such as
a non-empty sequence or non-empty string) is passed through unchanged and
analysis raises `AttributeError`, producing no report. -/
theorem claim_C6_amended :
    (∀ (p : String) (d : Yaml), d.truthy = false →
      analyze_workflow p (.ok d) =
        .ok { path := p, triggers := [], warnings := [topPermissionsWarning], infos := [] })
    ∧ (∀ (p : String) (d : Yaml), d.truthy = true → d.isMap = false →
        analyze_workflow p (.ok d) = .error (.attributeError "get")) := by
  constructor
  · intro p d hd
    have hload : load_yaml_file (.ok d) = .ok (.map []) := by
      simp [load_yaml_file, hd]
    unfold analyze_workflow
    rw [hload]
    rfl
  · intro p d hd hm
    have hload : load_yaml_file (.ok d) = .ok d := by
      simp [load_yaml_file, hd]
    have hget : dictGet d "on" .null = .error (.attributeError "get") := by
      cases d <;> simp_all [dictGet, Yaml.isMap]
    unfold analyze_workflow
    rw [hload]
    dsimp only
    rw [hget]

/-- Witness for the amended C6: an empty document analyzes to the bare
report; a non-empty-sequence root raises. -/
theorem claim_C6_amended_witness :
    analyze_workflow "w.yml" (.ok .null) =
      .ok { path := "w.yml", triggers := [], warnings := [topPermissionsWarning], infos := [] }
    ∧ analyze_workflow "w.yml" (.ok (.str "hello")) = .error (.attributeError "get") :=
  ⟨claim_C6_amended.1 "w.yml" .null rfl, claim_C6_amended.2 "w.yml" (.str "hello") rfl rfl⟩

/-- Counterexample to C7: an `on` value that is a number (not absent, not a
string, not a sequence, not a mapping) makes trigger extraction raise
`AttributeError` — the fallthrough calls `raw_on.keys()` — instead of
returning the empty trigger set. -/
theorem claim_C7_counterexample :
    collect_triggers (.int 7) = .error (.attributeError "keys") := rfl

/-- C7 as amended: `on` values that are not `None`, not a string and not a
sequence are handed to `raw_on.keys()` — a mapping yields its keys, while a
number or boolean raises `AttributeError`; there is no defensive
empty-set default. -/
theorem claim_C7_amended (y : Yaml) (h0 : y.isNull = false) (h1 : y.isStr = false)
    (h2 : y.isSeq = false) (h3 : y.isMap = false) :
    collect_triggers y = .error (.attributeError "keys") := by
  cases y <;> simp_all [Yaml.isNull, Yaml.isStr, Yaml.isSeq, Yaml.isMap, collect_triggers]

/-- Witness for the amended C7 at a boolean `on` value. -/
theorem claim_C7_amended_witness :
    collect_triggers (.bool true) = .error (.attributeError "keys") :=
  claim_C7_amended (.bool true) rfl rfl rfl rfl

/-- C8: for every mapping workflow on which `check_permissions` completes,
the top-level warning is emitted exactly when the `permissions` key is
absent; in particular `permissions: {}` suppresses it and an absent key fires
it even with zero jobs. -/
theorem claim_C8 :
    (∀ (kvs : List (String × Yaml)) (wi : List String × List String),
      check_permissions (.map kvs) = .ok wi →
      (topPermissionsWarning ∈ wi.1 ↔ kvs.lookup "permissions" = none))
    ∧ check_permissions (.map [("permissions", .map [])]) = .ok ([], [])
    ∧ check_permissions (.map []) = .ok ([topPermissionsWarning], []) := by
  refine ⟨?_, rfl, rfl⟩
  intro kvs wi h
  unfold check_permissions at h
  dsimp only at h
  split at h
  · injection h with h'
    subst h'
    cases hperm : kvs.lookup "permissions" <;> simp [hperm]
  · cases h

/-- Witness for C8 at a workflow declaring `permissions: {}`. -/
theorem claim_C8_witness :
    topPermissionsWarning ∈ (([], []) : List String × List String).1 ↔
      ([("permissions", Yaml.map [])] : List (String × Yaml)).lookup "permissions" = none :=
  claim_C8.1 [("permissions", .map [])] ([], []) rfl

/-- A rendered line carrying a non-`N` first character is never the literal
fallback line. -/
theorem append_ne_noWarningsLine {p : String} (t : String) {c : Char} {cs : List Char}
    (hp : p.data = c :: cs) (hc : c ≠ 'N') : p ++ t ≠ noWarningsLine := by
  intro h
  have hdata : p.data ++ t.data = noWarningsLine.data := by
    rw [← String.data_append, h]
  rw [hp, show noWarningsLine.data = 'N' :: "o warnings detected.".data from rfl,
    List.cons_append] at hdata
  injection hdata with h1 h2
  exact hc h1

/-- C9: the rendered report contains the literal "No warnings detected." line
exactly when the warning list is empty, regardless of info findings. -/
theorem claim_C9 (r : WorkflowReport) :
    noWarningsLine ∈ render_lines r ↔ r.warnings = [] := by
  constructor
  · intro h
    by_contra hw
    have hwe : r.warnings.isEmpty = false := by
      cases hlw : r.warnings with
      | nil => exact absurd hlw hw
      | cons a l => rfl
    unfold render_lines at h
    rw [hwe] at h
    simp only [Bool.false_eq_true, if_false, List.append_nil] at h
    rcases List.mem_append.mp h with h | h
    · rcases List.mem_append.mp h with h | h
      · rcases List.mem_append.mp h with h | h
        · exact append_ne_noWarningsLine _ rfl (by decide)
            ((List.mem_singleton.mp h).symm)
        · cases ht : r.triggers.isEmpty with
          | true => rw [ht] at h; simp at h
          | false =>
            rw [ht] at h
            simp only [Bool.false_eq_true, if_false, List.mem_singleton] at h
            exact append_ne_noWarningsLine _ rfl (by decide) h.symm
      · cases hi : r.infos.isEmpty with
        | true => rw [hi] at h; simp at h
        | false =>
          rw [hi] at h
          simp only [Bool.false_eq_true, if_false] at h
          rcases List.mem_cons.mp h with h | h
          · exact absurd h.symm (by decide)
          · obtain ⟨m, hm, hml⟩ := List.mem_map.mp h
            exact append_ne_noWarningsLine _ rfl (by decide) hml
    · rcases List.mem_cons.mp h with h | h
      · exact absurd h.symm (by decide)
      · obtain ⟨m, hm, hml⟩ := List.mem_map.mp h
        exact append_ne_noWarningsLine _ rfl (by decide) hml
  · intro h
    simp [render_lines, h]

/-- Witness-style instantiations of C9 at concrete reports: info findings
alone keep the fallback line; one warning removes it. -/
theorem claim_C9_witness :
    (noWarningsLine ∈ render_lines ⟨"a.yml", [], [], ["i"]⟩ ↔ ([] : List String) = [])
    ∧ (noWarningsLine ∈ render_lines ⟨"a.yml", [], ["w"], []⟩ ↔
        (["w"] : List String) = []) :=
  ⟨claim_C9 ⟨"a.yml", [], [], ["i"]⟩, claim_C9 ⟨"a.yml", [], ["w"], []⟩⟩

/-- C10: a parsed document whose `jobs` key is null, and one whose jobs
mapping has a non-mapping job value, each make `analyze_workflow` raise in
the uses-reference pass (`iter_uses_statements`) and yield no report, even
though `check_permissions` alone tolerates the very same document. -/
theorem claim_C10 :
    analyze_workflow "wf.yml" (.ok (.map [("jobs", Yaml.null)])) =
      .error (.attributeError "items")
    ∧ iter_uses_statements (.map [("jobs", Yaml.null)]) = .error (.attributeError "items")
    ∧ check_permissions (.map [("jobs", Yaml.null)]) = .ok ([topPermissionsWarning], [])
    ∧ analyze_workflow "wf.yml" (.ok (.map [("jobs", .map [("build", .str "x")])])) =
        .error (.attributeError "get")
    ∧ iter_uses_statements (.map [("jobs", .map [("build", .str "x")])]) =
        .error (.attributeError "get")
    ∧ check_permissions (.map [("jobs", .map [("build", .str "x")])]) =
        .ok ([topPermissionsWarning], []) :=
  ⟨rfl, rfl, rfl, rfl, rfl, rfl⟩
